import Mathlib

set_option maxHeartbeats 1600000
set_option maxRecDepth 8000

/-!
Verification development for the core of a synchronous PostgreSQL client
library (`src/lib.rs`, `src/params.rs`).  The wire protocol state machine is
shallowly embedded: the duplex stream is modelled as the list of backend
frames still to be read (`stream_in`) together with the list of frontend
frames written so far (`out`).  Panics are modelled by a dedicated result
constructor; fallible operations return `Except`-style results.  Loops whose
progress is not structural on the stream take an explicit fuel argument; an
exhausted fuel is reported as a distinguished I/O error (a model artifact:
the source loops are bounded by the frames actually arriving).
-/

namespace Pg

/-- Object identifiers (u32 in the source). -/
abbrev Oid := Nat

/-- Rust `RowDescriptionEntry` from message.rs: only the fields consumed by
`raw_prepare` (`name`, `type_oid`) are modelled. -/
structure RowDescriptionEntry where
  name : String
  type_oid : Oid
  deriving DecidableEq

/-- A row payload: each column is either SQL NULL or a raw binary blob
(bytes modelled as `Nat`s below 256). -/
abbrev Row := List (Option (List Nat))

/-- Backend (server → client) frames, with exactly the payload fields the
source consumes. -/
inductive Backend where
  | AuthenticationOk
  | AuthenticationCleartextPassword
  | AuthenticationMD5Password (salt : List Nat)
  | AuthenticationKerberosV5
  | AuthenticationSCMCredential
  | AuthenticationGSS
  | AuthenticationSSPI
  | BackendKeyData (process_id : Nat) (secret_key : Nat)
  | BindComplete
  | CloseComplete
  | CommandComplete (tag : String)
  | CopyInResponse
  | CopyOutResponse
  | DataRow (row : Row)
  | EmptyQueryResponse
  | ErrorResponse (fields : List (Nat × String))
  | NoData
  | NoticeResponse (fields : List (Nat × String))
  | NotificationResponse (pid : Nat) (channel : String) (payload : String)
  | ParameterDescription (types : List Oid)
  | ParameterStatus (parameter : String) (value : String)
  | ParseComplete
  | PortalSuspended
  | ReadyForQuery (status : Nat)
  | RowDescription (descriptions : List RowDescriptionEntry)
  deriving DecidableEq

/-- Frontend (client → server) frames written by the modelled operations. -/
inductive Frontend where
  | Bind (portal : String) (statement : String) (formats : List Nat)
      (values : List (Option (List Nat))) (result_formats : List Nat)
  | Close (variant : Nat) (name : String)
  | CopyFail (message : String)
  | Describe (variant : Nat) (name : String)
  | Execute (portal : String) (max_rows : Int)
  | Parse (name : String) (query : String) (param_types : List Oid)
  | PasswordMessage (password : String)
  | Query (query : String)
  | Sync
  | Terminate
  deriving DecidableEq

/-- Rust `std::io::ErrorKind`, restricted to the kinds the source constructs. -/
inductive IoErrorKind where
  | InvalidInput
  | Other
  deriving DecidableEq

/-- Rust `std::io::Error`: a kind plus the error message. -/
structure IoError where
  kind : IoErrorKind
  msg : String
  deriving DecidableEq

/-- Rust `bad_response()` (lib.rs): the fixed unexpected-response I/O error. -/
def bad_response : IoError :=
  ⟨.InvalidInput, "the server returned an unexpected response"⟩

/-- Rust `desynchronized()` (lib.rs): the fixed desynchronized I/O error. -/
def desynchronized_error : IoError :=
  ⟨.Other, "communication with the server has desynchronized due to an earlier IO error"⟩

/-- Model artifact: reading when the modelled frame list is exhausted.  The
source would block on the socket; the finite-trace model reports it as an
I/O failure on the stream. -/
def stream_eof : IoError := ⟨.Other, "unexpected end of stream"⟩

/-- Model artifact: the fuel of a modelled loop ran out. -/
def fuel_exhausted : IoError := ⟨.Other, "model loop fuel exhausted"⟩

/-- The fixed message used for rejected COPY queries (lib.rs `read_rows`,
`quick_query`). -/
def copy_message : String := "COPY queries cannot be directly executed"

/-- Rust `Error` (error.rs holds only its declaration): I/O, database error
fields as received in the ErrorResponse frame, or a codec conversion
failure. -/
inductive Error where
  | Io (e : IoError)
  | Db (fields : List (Nat × String))
  | Conversion (msg : String)
  deriving DecidableEq

/-- Rust `ConnectError` for the startup path. -/
inductive ConnectError where
  | ConnectParams (msg : String)
  | Io (e : IoError)
  | Db (fields : List (Nat × String))
  deriving DecidableEq

/-- Rust `Notification` (notification.rs): pid, channel, payload. -/
structure Notification where
  pid : Nat
  channel : String
  payload : String
  deriving DecidableEq

mutual
/-- Rust `Type` (types.rs): well-known scalar types, plus `Other` for
server-defined types.  A representative fragment of the large built-in
enumeration; the claims depend only on the well-known table being consulted
first. -/
inductive PgType where
  | Bool
  | Char
  | Name
  | Int4
  | Text
  | Oid
  | Other (o : OtherType)

/-- Rust `Other` (types.rs): a dynamically resolved type: name, OID, kind,
schema. -/
inductive OtherType where
  | mk (name : String) (oid : Nat) (kind : Kind) (schema : String)

/-- Rust `Kind` (types.rs): the classification of a resolved type.  A composite
field (`Field`) is a name/type pair. -/
inductive Kind where
  | Simple
  | Pseudo
  | Enum (labels : List String)
  | Domain (t : PgType)
  | Array (t : PgType)
  | Range (t : PgType)
  | Composite (fields : List (String × PgType))
end

/-- Modelled from the spec: `Type::from_oid`, the static well-known-OID
table (types.rs is not under src/).  A representative fragment of the
table; the claims depend only on its priority over the dynamic paths. -/
def PgType.from_oid : Nat → Option PgType
  | 16 => some .Bool
  | 18 => some .Char
  | 19 => some .Name
  | 23 => some .Int4
  | 25 => some .Text
  | 26 => some .Oid
  | _ => none

/-- Rust `StatementInfo` (lib.rs): server-side statement name, resolved parameter
types, result columns (`Column` is a name/type pair). -/
structure StmtInfo where
  name : String
  param_types : List PgType
  columns : List (String × PgType)

/-- Rust `Statement` (the stmt.rs handle, as constructed in lib.rs): the shared
descriptor plus the `cached` flag.  The connection back-reference and the
portal counter play no role in the modelled operations; `Arc` sharing of
the descriptor is modelled by equality of the `info` field. -/
structure Statement where
  info : StmtInfo
  cached : Bool

/-- Rust `InnerConnection`: all per-session state.  The buffered duplex stream is
modelled by `stream_in` (backend frames not yet read) and `out` (frontend
frames written, in order).  The notice sink is modelled as the list of
notice field-maps delivered to it.  The three hash maps are modelled as
association lists where an insert shadows earlier bindings (`List.lookup`
returns the most recent one). -/
structure Conn where
  stream_in : List Backend
  out : List Frontend
  notices : List (List (Nat × String))
  notifications : List Notification
  cancel_data : Nat × Nat
  unknown_types : List (Oid × OtherType)
  cached_statements : List (String × StmtInfo)
  parameters : List (String × String)
  next_stmt_id : Nat
  trans_depth : Nat
  desynchronized : Bool
  finished : Bool

/-- Result of a `Result<T>`-typed operation that can also panic: `panic`
carries the session state at the moment of the panic. -/
inductive Res (α : Type) where
  | panic (c : Conn)
  | ok (a : α) (c : Conn)
  | err (e : Error) (c : Conn)

/-- The session state carried by a result. -/
def Res.conn {α : Type} : Res α → Conn
  | .panic c => c
  | .ok _ c => c
  | .err _ c => c

/-- Whether a result is a panic. -/
def Res.is_panic {α : Type} : Res α → Bool
  | .panic _ => true
  | .ok _ _ => false
  | .err _ _ => false

/-- Rust `write_messages` (lib.rs:637): serializes each frame and flushes.  The
`debug_assert!(!self.desynchronized)` is a release-mode no-op, and the
modelled stream accepts every write, so the `try_desync!` failure path is
not exercised; the frames are appended to `out`. -/
def write_messages (c : Conn) (msgs : List Frontend) : Conn :=
  { c with out := c.out ++ msgs }

/-- Modelled from the spec: `DbError::new_raw` (error.rs, not under src/)
parses the notice/error field map; the parsing is an external detail, the
notice is delivered to the sink as its raw field map. -/
def DbError.new_raw (fields : List (Nat × String)) : Option (List (Nat × String)) :=
  some fields

/-- The loop of `read_message_with_notification` (lib.rs:645), recursing
structurally on the frames still to be read; the wrapper below starts it on
`c.stream_in`, and every exit path writes the remaining frames back. -/
def read_message_with_notification_go :
    List Backend → Conn → Except IoError Backend × Conn
  | [], c => (.error stream_eof, { c with stream_in := [], desynchronized := true })
  | .NoticeResponse fields :: rest, c =>
    read_message_with_notification_go rest
      { c with notices := match DbError.new_raw fields with
                          | some e => c.notices ++ [e]
                          | none => c.notices }
  | .ParameterStatus k v :: rest, c =>
    read_message_with_notification_go rest
      { c with parameters := (k, v) :: c.parameters }
  | f :: rest, c => (.ok f, { c with stream_in := rest })

/-- Rust `read_message_with_notification` (lib.rs:645): blocking read that
diverts NoticeResponse to the notice sink and ParameterStatus to the
parameter map, returning the first other frame.  The release-mode
`debug_assert!(!self.desynchronized)` is a no-op. -/
def read_message_with_notification (c : Conn) : Except IoError Backend × Conn :=
  read_message_with_notification_go c.stream_in c

/-- The loop of `read_message_with_notification_timeout` (lib.rs:662): the
same demux over a timed read; an exhausted modelled stream stands for "no
complete frame within the deadline" and yields `none`. -/
def read_message_with_notification_timeout_go :
    List Backend → Conn → Except IoError (Option Backend) × Conn
  | [], c => (.ok none, { c with stream_in := [] })
  | .NoticeResponse fields :: rest, c =>
    read_message_with_notification_timeout_go rest
      { c with notices := match DbError.new_raw fields with
                          | some e => c.notices ++ [e]
                          | none => c.notices }
  | .ParameterStatus k v :: rest, c =>
    read_message_with_notification_timeout_go rest
      { c with parameters := (k, v) :: c.parameters }
  | f :: rest, c => (.ok (some f), { c with stream_in := rest })

/-- Rust `read_message_with_notification_timeout` (lib.rs:662). -/
def read_message_with_notification_timeout (c : Conn) :
    Except IoError (Option Backend) × Conn :=
  read_message_with_notification_timeout_go c.stream_in c

/-- The loop of `read_message_with_notification_nonblocking` (lib.rs:681):
identical demux over a non-blocking read. -/
def read_message_with_notification_nonblocking_go :
    List Backend → Conn → Except IoError (Option Backend) × Conn
  | [], c => (.ok none, { c with stream_in := [] })
  | .NoticeResponse fields :: rest, c =>
    read_message_with_notification_nonblocking_go rest
      { c with notices := match DbError.new_raw fields with
                          | some e => c.notices ++ [e]
                          | none => c.notices }
  | .ParameterStatus k v :: rest, c =>
    read_message_with_notification_nonblocking_go rest
      { c with parameters := (k, v) :: c.parameters }
  | f :: rest, c => (.ok (some f), { c with stream_in := rest })

/-- Rust `read_message_with_notification_nonblocking` (lib.rs:681). -/
def read_message_with_notification_nonblocking (c : Conn) :
    Except IoError (Option Backend) × Conn :=
  read_message_with_notification_nonblocking_go c.stream_in c

/-- Rust `read_message` (lib.rs:699): loops over
`read_message_with_notification`, pushing NotificationResponse frames onto
the notification queue and returning the first other frame. -/
def read_message : Nat → Conn → Except IoError Backend × Conn
  | 0, c => (.error fuel_exhausted, c)
  | fuel + 1, c =>
    match read_message_with_notification c with
    | (.error e, c2) => (.error e, c2)
    | (.ok (.NotificationResponse pid channel payload), c2) =>
      read_message fuel
        { c2 with notifications := c2.notifications ++ [⟨pid, channel, payload⟩] }
    | (.ok f, c2) => (.ok f, c2)

/-- Rust `wait_for_ready` (lib.rs:1055): the next frame must be ReadyForQuery.
The `bad_response!` macro (macros.rs, declarations only) sets the
desynchronized flag and returns the fixed unexpected-response I/O error, as
the error-handling section of the spec describes for unexpected frames. -/
def wait_for_ready (fuel : Nat) (c : Conn) : Except Error Unit × Conn :=
  match read_message fuel c with
  | (.error e, c2) => (.error (.Io e), c2)
  | (.ok (.ReadyForQuery _), c2) => (.ok (), c2)
  | (.ok _, c2) => (.error (.Io bad_response), { c2 with desynchronized := true })

/-- The inner drain loop of the CopyOutResponse arm of `read_rows`
(lib.rs:832): read frames until ReadyForQuery. -/
def drain_until_ready : Nat → Conn → Except IoError Unit × Conn
  | 0, c => (.error fuel_exhausted, c)
  | fuel + 1, c =>
    match read_message fuel c with
    | (.error e, c2) => (.error e, c2)
    | (.ok (.ReadyForQuery _), c2) => (.ok (), c2)
    | (.ok _, c2) => drain_until_ready fuel c2

/-- The shared ErrorResponse tail `try!(self.wait_for_ready()); return
DbError::new(fields)`: recover to ReadyForQuery, then surface the database
error (read failures during the recovery take precedence). -/
def surface_db_error {α : Type} (fields : List (Nat × String))
    (r : Except Error Unit × Conn) : Res α :=
  match r with
  | (.ok _, c2) => .err (.Db fields) c2
  | (.error e, c2) => .err e c2

/-- The tail of `read_rows` after the loop breaks (lib.rs:848):
`wait_for_ready` then `Ok(more_rows)`. -/
def read_rows_finish (fuel : Nat) (c : Conn) (buf : List Row) (more_rows : Bool) :
    Res (Bool × List Row) :=
  match wait_for_ready fuel c with
  | (.ok _, c2) => .ok (more_rows, buf) c2
  | (.error e, c2) => .err e c2

/-- Rust `read_rows` (lib.rs:808): accumulate DataRow payloads into `buf`;
EmptyQueryResponse/CommandComplete end with `more_rows = false`,
PortalSuspended with `true`; CopyInResponse sends CopyFail plus Sync and
keeps reading; CopyOutResponse drains to ReadyForQuery and surfaces the
fixed COPY error; ErrorResponse recovers to ReadyForQuery and surfaces the
database error; any other frame sets the desynchronized flag. -/
def read_rows : Nat → Conn → List Row → Res (Bool × List Row)
  | 0, c, _ => .err (.Io fuel_exhausted) c
  | fuel + 1, c, buf =>
    match read_message fuel c with
    | (.error e, c2) => .err (.Io e) c2
    | (.ok f, c2) =>
      match f with
      | .EmptyQueryResponse => read_rows_finish fuel c2 buf false
      | .CommandComplete _ => read_rows_finish fuel c2 buf false
      | .PortalSuspended => read_rows_finish fuel c2 buf true
      | .DataRow row => read_rows fuel c2 (buf ++ [row])
      | .ErrorResponse fields => surface_db_error fields (wait_for_ready fuel c2)
      | .CopyInResponse =>
        read_rows fuel (write_messages c2 [.CopyFail copy_message, .Sync]) buf
      | .CopyOutResponse =>
        match drain_until_ready fuel c2 with
        | (.ok _, c3) => .err (.Io ⟨.InvalidInput, copy_message⟩) c3
        | (.error e, c3) => .err (.Io e) c3
      | _ => .err (.Io bad_response) { c2 with desynchronized := true }

/-- Rust `raw_execute` (lib.rs:852).  The initial `assert!` on the parameter
count is the `panic` case.  Parameter serialization through the external
`ToSql` codecs is out of scope (spec, purpose section); parameters are
modelled as the already-serialized binary payloads (`none` = SQL NULL), so
the Bind values are the parameters themselves. -/
def raw_execute (fuel : Nat) (c : Conn) (stmt_name portal_name : String)
    (row_limit : Int) (param_types : List PgType)
    (params : List (Option (List Nat))) : Res Unit :=
  if param_types.length = params.length then
    match read_message fuel (write_messages c
      [.Bind portal_name stmt_name [1] params [1],
       .Execute portal_name row_limit,
       .Sync]) with
    | (.error e, c2) => .err (.Io e) c2
    | (.ok .BindComplete, c2) => .ok () c2
    | (.ok (.ErrorResponse fields), c2) =>
      surface_db_error fields (wait_for_ready fuel c2)
    | (.ok _, c2) => .err (.Io bad_response) { c2 with desynchronized := true }
  else .panic c

/-- Rust `String::from_utf8_lossy`, modelled byte-per-character (the exact UTF-8
decoding is an external concern). -/
def bytes_to_string (bs : List Nat) : String := String.mk (bs.map Char.ofNat)

/-- The loop of `quick_query` (lib.rs:1068): drain frames until
ReadyForQuery, turning DataRow payloads into lossy UTF-8 strings;
CopyInResponse sends CopyFail plus Sync; ErrorResponse recovers to
ReadyForQuery and surfaces the database error; every other frame is
silently skipped by the final catch-all arm. -/
def quick_query_go :
    Nat → Conn → List (List (Option String)) → Res (List (List (Option String)))
  | 0, c, _ => .err (.Io fuel_exhausted) c
  | fuel + 1, c, acc =>
    match read_message fuel c with
    | (.error e, c2) => .err (.Io e) c2
    | (.ok f, c2) =>
      match f with
      | .ReadyForQuery _ => .ok acc c2
      | .DataRow row =>
        quick_query_go fuel c2 (acc ++ [row.map (Option.map bytes_to_string)])
      | .CopyInResponse =>
        quick_query_go fuel (write_messages c2 [.CopyFail copy_message, .Sync]) acc
      | .ErrorResponse fields => surface_db_error fields (wait_for_ready fuel c2)
      | _ => quick_query_go fuel c2 acc

/-- Rust `quick_query` (lib.rs:1062): the `check_desync!` macro (macros.rs,
declarations only) fails with the fixed desynchronized error when the latch
is set, per the session-stream section of the spec; otherwise the Query frame is
written and the response drained. -/
def quick_query (fuel : Nat) (c : Conn) (query : String) :
    Res (List (List (Option String))) :=
  if c.desynchronized then .err (.Io desynchronized_error) c
  else quick_query_go fuel (write_messages c [.Query query]) []

/-- Rust `make_stmt_name` (lib.rs:901): `sN` with a monotonically incremented
counter. -/
def make_stmt_name (c : Conn) : String × Conn :=
  ("s" ++ toString c.next_stmt_id, { c with next_stmt_id := c.next_stmt_id + 1 })

/-- The three named typeinfo statements (lib.rs:100). -/
def TYPEINFO_QUERY : String := "__typeinfo"

/-- See `TYPEINFO_QUERY`. -/
def TYPEINFO_ENUM_QUERY : String := "__typeinfo_enum"

/-- See `TYPEINFO_QUERY`. -/
def TYPEINFO_COMPOSITE_QUERY : String := "__typeinfo_composite"

/-- Rust `row[i].as_ref().unwrap()`: `some` bytes only when column `i` exists
and is non-NULL; `none` stands for the panic (index out of bounds or
unwrap of NULL). -/
def get_col (row : Row) (i : Nat) : Option (List Nat) :=
  match row.get? i with
  | some (some b) => some b
  | _ => none

/-- Rust `String::from_sql` at type NAME: the external codec is modelled as a
byte-per-character decoding. -/
def decode_name (bs : List Nat) : Except Error String :=
  .ok (bytes_to_string bs)

/-- Rust `i8::from_sql` at type CHAR: exactly one byte. -/
def decode_char (bs : List Nat) : Except Error Nat :=
  match bs with
  | [b] => .ok b
  | _ => .error (.Conversion "invalid i8 value")

/-- Rust `Oid::from_sql`: exactly four bytes, big-endian u32. -/
def decode_oid (bs : List Nat) : Except Error Nat :=
  match bs with
  | [a, b, c, d] => .ok (((a * 256 + b) * 256 + c) * 256 + d)
  | _ => .error (.Conversion "invalid u32 value")

/-- The big-endian serialization of an OID parameter (the `&oid` argument
of `raw_execute` in `read_type`). -/
def oid_bytes (oid : Nat) : List Nat :=
  [oid / 16777216 % 256, oid / 65536 % 256, oid / 256 % 256, oid % 256]

/-- Result of decoding a fetched row outside any connection state:
distinguishes a panic (unwrap of a missing/NULL column) from a codec
conversion error. -/
inductive RowRes (α : Type) where
  | panic
  | err (e : Error)
  | ok (a : α)

/-- The column-decoding block of `read_type` (lib.rs:975): the seven
typeinfo columns, accessed and decoded in source order; `row[3]`
(rngsubtype) may be NULL, every other column is unwrapped. -/
def decode_typeinfo_row (row : Row) :
    RowRes (String × Nat × Nat × Option Nat × Nat × String × Nat) :=
  match get_col row 0 with
  | none => .panic
  | some b0 =>
    match decode_name b0 with
    | .error e => .err e
    | .ok name =>
      match get_col row 1 with
      | none => .panic
      | some b1 =>
        match decode_char b1 with
        | .error e => .err e
        | .ok type_ =>
          match get_col row 2 with
          | none => .panic
          | some b2 =>
            match decode_oid b2 with
            | .error e => .err e
            | .ok elem_oid =>
              match row.get? 3 with
              | none => .panic
              | some col3 =>
                match (match col3 with
                       | some data => (decode_oid data).map some
                       | none => Except.ok none) with
                | .error e => .err e
                | .ok rngsubtype =>
                  match get_col row 4 with
                  | none => .panic
                  | some b4 =>
                    match decode_oid b4 with
                    | .error e => .err e
                    | .ok basetype =>
                      match get_col row 5 with
                      | none => .panic
                      | some b5 =>
                        match decode_name b5 with
                        | .error e => .err e
                        | .ok schema =>
                          match get_col row 6 with
                          | none => .panic
                          | some b6 =>
                            match decode_oid b6 with
                            | .error e => .err e
                            | .ok relid =>
                              .ok (name, type_, elem_oid, rngsubtype,
                                   basetype, schema, relid)

/-- The row-decoding loop of `read_enum_variants` (lib.rs:1019): the first
column of each row is unwrapped and decoded as a NAME. -/
def decode_enum_rows : List Row → RowRes (List String)
  | [] => .ok []
  | row :: rows =>
    match get_col row 0 with
    | none => .panic
    | some b0 =>
      match decode_name b0 with
      | .error e => .err e
      | .ok label =>
        match decode_enum_rows rows with
        | .panic => .panic
        | .err e => .err e
        | .ok labels => .ok (label :: labels)

/-- Rust `read_enum_variants` (lib.rs:1012): run the prepared `__typeinfo_enum`
statement for the OID and decode the ordered labels. -/
def read_enum_variants (fuel : Nat) (c : Conn) (oid : Oid) : Res (List String) :=
  match raw_execute fuel c TYPEINFO_ENUM_QUERY "" 0 [.Oid] [some (oid_bytes oid)] with
  | .panic c2 => .panic c2
  | .err e c2 => .err e c2
  | .ok _ c2 =>
    match read_rows fuel c2 [] with
    | .panic c3 => .panic c3
    | .err e c3 => .err e c3
    | .ok (_, rows) c3 =>
      match decode_enum_rows rows with
      | .panic => .panic c3
      | .err e => .err e c3
      | .ok labels => .ok labels c3

mutual
/-- Rust `get_type` (lib.rs:954): static well-known table first, then the
unknown-types cache of the session, and only then the `__typeinfo` catalog
query through `read_type`, whose result is inserted into the cache.  `fuel`
bounds the recursion depth of the resolver (the source recursion is bounded
only by the acyclicity of the catalog). -/
def get_type : Nat → Conn → Oid → Res PgType
  | 0, c, _ => .err (.Io fuel_exhausted) c
  | fuel + 1, c, oid =>
    match PgType.from_oid oid with
    | some ty => .ok ty c
    | none =>
      match c.unknown_types.lookup oid with
      | some o => .ok (.Other o) c
      | none =>
        match read_type fuel c oid with
        | .panic c2 => .panic c2
        | .err e c2 => .err e c2
        | .ok o c2 =>
          .ok (.Other o) { c2 with unknown_types := (oid, o) :: c2.unknown_types }

/-- Rust `read_type` (lib.rs:969): run the prepared `__typeinfo` statement for
the OID, unwrap the first returned row (`rows.pop_front().unwrap()` — a
panic when no row came back), decode the seven columns and classify, in
source order: enum, pseudo, domain, array, composite, range, simple. -/
def read_type : Nat → Conn → Oid → Res OtherType
  | 0, c, _ => .err (.Io fuel_exhausted) c
  | fuel + 1, c, oid =>
    match raw_execute fuel c TYPEINFO_QUERY "" 0 [.Oid] [some (oid_bytes oid)] with
    | .panic c2 => .panic c2
    | .err e c2 => .err e c2
    | .ok _ c2 =>
      match read_rows fuel c2 [] with
      | .panic c3 => .panic c3
      | .err e c3 => .err e c3
      | .ok (_, rows) c3 =>
        match rows with
        | [] => .panic c3
        | row :: _ =>
          match decode_typeinfo_row row with
          | .panic => .panic c3
          | .err e => .err e c3
          | .ok (name, type_, elem_oid, rngsubtype, basetype, schema, relid) =>
            if type_ = 101 then
              match read_enum_variants fuel c3 oid with
              | .panic c4 => .panic c4
              | .err e c4 => .err e c4
              | .ok labels c4 => .ok (.mk name oid (.Enum labels) schema) c4
            else if type_ = 112 then
              .ok (.mk name oid .Pseudo schema) c3
            else if basetype ≠ 0 then
              match get_type fuel c3 basetype with
              | .panic c4 => .panic c4
              | .err e c4 => .err e c4
              | .ok t c4 => .ok (.mk name oid (.Domain t) schema) c4
            else if elem_oid ≠ 0 then
              match get_type fuel c3 elem_oid with
              | .panic c4 => .panic c4
              | .err e c4 => .err e c4
              | .ok t c4 => .ok (.mk name oid (.Array t) schema) c4
            else if relid ≠ 0 then
              match read_composite_fields fuel c3 relid with
              | .panic c4 => .panic c4
              | .err e c4 => .err e c4
              | .ok fields c4 => .ok (.mk name oid (.Composite fields) schema) c4
            else
              match rngsubtype with
              | some sub =>
                match get_type fuel c3 sub with
                | .panic c4 => .panic c4
                | .err e c4 => .err e c4
                | .ok t c4 => .ok (.mk name oid (.Range t) schema) c4
              | none => .ok (.mk name oid .Simple schema) c3

/-- Rust `read_composite_fields` (lib.rs:1028): run the prepared
`__typeinfo_composite` statement for the relation OID and resolve the type
of each attribute. -/
def read_composite_fields (fuel : Nat) (c : Conn) (relid : Oid) :
    Res (List (String × PgType)) :=
  match fuel with
  | 0 => .err (.Io fuel_exhausted) c
  | fuel + 1 =>
    match raw_execute fuel c TYPEINFO_COMPOSITE_QUERY "" 0 [.Oid] [some (oid_bytes relid)] with
    | .panic c2 => .panic c2
    | .err e c2 => .err e c2
    | .ok _ c2 =>
      match read_rows fuel c2 [] with
      | .panic c3 => .panic c3
      | .err e c3 => .err e c3
      | .ok (_, rows) c3 => composite_fields_loop fuel c3 rows []

/-- The per-row loop of `read_composite_fields` (lib.rs:1034): unwrap and
decode `attname` and `atttypid`, resolve the type, accumulate the field. -/
def composite_fields_loop :
    Nat → Conn → List Row → List (String × PgType) → Res (List (String × PgType))
  | 0, c, _, _ => .err (.Io fuel_exhausted) c
  | _ + 1, c, [], acc => .ok acc c
  | fuel + 1, c, row :: rows, acc =>
    match get_col row 0 with
    | none => .panic c
    | some b0 =>
      match decode_name b0 with
      | .error e => .err e c
      | .ok name =>
        match get_col row 1 with
        | none => .panic c
        | some b1 =>
          match decode_oid b1 with
          | .error e => .err e c
          | .ok toid =>
            match get_type fuel c toid with
            | .panic c2 => .panic c2
            | .err e c2 => .err e c2
            | .ok t c2 => composite_fields_loop fuel c2 rows (acc ++ [(name, t)])
end

/-- The parameter-type resolution loop of `raw_prepare` (lib.rs:795). -/
def resolve_types : Nat → Conn → List Oid → List PgType → Res (List PgType)
  | _, c, [], acc => .ok acc c
  | fuel, c, oid :: rest, acc =>
    match get_type fuel c oid with
    | .panic c2 => .panic c2
    | .err e c2 => .err e c2
    | .ok t c2 => resolve_types fuel c2 rest (acc ++ [t])

/-- The column resolution loop of `raw_prepare` (lib.rs:800). -/
def resolve_columns :
    Nat → Conn → List RowDescriptionEntry → List (String × PgType) →
    Res (List (String × PgType))
  | _, c, [], acc => .ok acc c
  | fuel, c, entry :: rest, acc =>
    match get_type fuel c entry.type_oid with
    | .panic c2 => .panic c2
    | .err e c2 => .err e c2
    | .ok t c2 => resolve_columns fuel c2 rest (acc ++ [(entry.name, t)])

/-- The tail of `raw_prepare` (lib.rs:793): `wait_for_ready`, then resolve
parameter OIDs and column entries through the type resolver. -/
def raw_prepare_resolve (fuel : Nat) (c : Conn) (raw_types : List Oid)
    (raw_columns : List RowDescriptionEntry) :
    Res (List PgType × List (String × PgType)) :=
  match wait_for_ready fuel c with
  | (.error e, c2) => .err e c2
  | (.ok _, c2) =>
    match resolve_types fuel c2 raw_types [] with
    | .panic c3 => .panic c3
    | .err e c3 => .err e c3
    | .ok param_types c3 =>
      match resolve_columns fuel c3 raw_columns [] with
      | .panic c4 => .panic c4
      | .err e c4 => .err e c4
      | .ok columns c4 => .ok (param_types, columns) c4

/-- Rust `raw_prepare` (lib.rs:759): write Parse/Describe('S')/Sync, then expect
ParseComplete, ParameterDescription, RowDescription-or-NoData, and
ReadyForQuery; ErrorResponse recovers to ReadyForQuery and surfaces the
database error; unexpected frames hit `bad_response!` (desynchronize and
fail). -/
def raw_prepare (fuel : Nat) (c : Conn) (stmt_name query : String) :
    Res (List PgType × List (String × PgType)) :=
  let c1 := write_messages c
    [.Parse stmt_name query [], .Describe 83 stmt_name, .Sync]
  match read_message fuel c1 with
  | (.error e, c2) => .err (.Io e) c2
  | (.ok f, c2) =>
    match f with
    | .ParseComplete =>
      (match read_message fuel c2 with
      | (.error e, c3) => .err (.Io e) c3
      | (.ok (.ParameterDescription raw_types), c3) =>
        (match read_message fuel c3 with
        | (.error e, c4) => .err (.Io e) c4
        | (.ok (.RowDescription raw_columns), c4) =>
          raw_prepare_resolve fuel c4 raw_types raw_columns
        | (.ok .NoData, c4) =>
          raw_prepare_resolve fuel c4 raw_types []
        | (.ok _, c4) => .err (.Io bad_response) { c4 with desynchronized := true })
      | (.ok _, c3) => .err (.Io bad_response) { c3 with desynchronized := true })
    | .ErrorResponse fields => surface_db_error fields (wait_for_ready fuel c2)
    | _ => .err (.Io bad_response) { c2 with desynchronized := true }

/-- Rust `prepare` (lib.rs:907): a fresh `sN` name, a full `raw_prepare`, a
non-cached handle. -/
def prepare (fuel : Nat) (c : Conn) (query : String) : Res Statement :=
  let (stmt_name, c1) := make_stmt_name c
  match raw_prepare fuel c1 stmt_name query with
  | .panic c2 => .panic c2
  | .err e c2 => .err e c2
  | .ok (param_types, columns) c2 =>
    .ok ⟨⟨stmt_name, param_types, columns⟩, false⟩ c2

/-- Rust `prepare_cached` (lib.rs:918): consult the cache by literal query text;
a hit returns a handle sharing the cached descriptor, a miss prepares,
inserts, and returns a handle on the fresh descriptor; both handles carry
`cached = true`. -/
def prepare_cached (fuel : Nat) (c : Conn) (query : String) : Res Statement :=
  match c.cached_statements.lookup query with
  | some info => .ok ⟨info, true⟩ c
  | none =>
    let (stmt_name, c1) := make_stmt_name c
    match raw_prepare fuel c1 stmt_name query with
    | .panic c2 => .panic c2
    | .err e c2 => .err e c2
    | .ok (param_types, columns) c2 =>
      .ok ⟨⟨stmt_name, param_types, columns⟩, true⟩
        { c2 with cached_statements :=
            (query, (⟨stmt_name, param_types, columns⟩ : StmtInfo)) :: c2.cached_statements }

/-- Rust `UserInfo`: username plus optional password (the identical definitions
in lib.rs and params.rs are shared). -/
structure UserInfo where
  user : String
  password : Option String
  deriving DecidableEq

/-- The incremental MD5 hasher interface used by `handle_auth` (md5.rs is
not under src/): the modelled state is the byte sequence fed so far. -/
structure Md5 where
  acc : List Nat

/-- Rust `Md5::new`. -/
def Md5.new : Md5 := ⟨[]⟩

/-- Rust `Md5::input`: append bytes to the hashed stream. -/
def Md5.input (h : Md5) (data : List Nat) : Md5 := ⟨h.acc ++ data⟩

/-- Modelled from the spec: `Md5::result_str` (md5.rs, not under src/)
produces the lower-case hex string of the MD5 digest of the input fed so
far; the digest-plus-hex function itself is the abstracted `md5hex`
argument. -/
def Md5.result_str (h : Md5) (md5hex : List Nat → String) : String := md5hex h.acc

/-- Rust `Md5::reset`: clear the hasher state. -/
def Md5.reset (_h : Md5) : Md5 := ⟨[]⟩

/-- The UTF-8 bytes of a string (`str::as_bytes`). -/
def str_bytes (s : String) : List Nat := s.toUTF8.toList.map (fun b => b.toNat)

/-- The second read of `handle_auth` (lib.rs:748) after a password was
sent: expect AuthenticationOk or ErrorResponse. -/
def handle_auth_finish (fuel : Nat) (c : Conn) : Except ConnectError Unit × Conn :=
  match read_message fuel c with
  | (.error e, c2) => (.error (.Io e), c2)
  | (.ok .AuthenticationOk, c2) => (.ok (), c2)
  | (.ok (.ErrorResponse fields), c2) => (.error (.Db fields), c2)
  | (.ok _, c2) => (.error (.Io bad_response), c2)

/-- Rust `handle_auth` (lib.rs:714): dispatch on the authentication challenge;
the MD5 arm feeds password-then-username to the hasher, hex-encodes, then
feeds the hex string and the raw salt, and sends `"md5" ++ result` as the
PasswordMessage. -/
def handle_auth (md5hex : List Nat → String) (fuel : Nat) (c : Conn)
    (user : UserInfo) : Except ConnectError Unit × Conn :=
  match read_message fuel c with
  | (.error e, c2) => (.error (.Io e), c2)
  | (.ok f, c2) =>
    match f with
    | .AuthenticationOk => (.ok (), c2)
    | .AuthenticationCleartextPassword =>
      (match user.password with
      | none => (.error (.ConnectParams "a password was requested but not provided"), c2)
      | some pass =>
        handle_auth_finish fuel (write_messages c2 [.PasswordMessage pass]))
    | .AuthenticationMD5Password salt =>
      (match user.password with
      | none => (.error (.ConnectParams "a password was requested but not provided"), c2)
      | some pass =>
        let hasher := Md5.new
        let hasher := hasher.input (str_bytes pass)
        let hasher := hasher.input (str_bytes user.user)
        let output := hasher.result_str md5hex
        let hasher := hasher.reset
        let hasher := hasher.input (str_bytes output)
        let hasher := hasher.input salt
        let output2 := "md5" ++ hasher.result_str md5hex
        handle_auth_finish fuel (write_messages c2 [.PasswordMessage output2]))
    | .AuthenticationKerberosV5 =>
      (.error (.Io ⟨.Other, "unsupported authentication"⟩), c2)
    | .AuthenticationSCMCredential =>
      (.error (.Io ⟨.Other, "unsupported authentication"⟩), c2)
    | .AuthenticationGSS =>
      (.error (.Io ⟨.Other, "unsupported authentication"⟩), c2)
    | .AuthenticationSSPI =>
      (.error (.Io ⟨.Other, "unsupported authentication"⟩), c2)
    | .ErrorResponse fields => (.error (.Db fields), c2)
    | _ => (.error (.Io bad_response), c2)

/-- The MD5 password construction exactly as the spec words it:
`"md5" || lower_hex(md5( lower_hex(md5(p || u)) || s ))`, with `md5hex`
standing for `lower_hex ∘ md5`. -/
def md5_spec_password (md5hex : List Nat → String) (u p : String)
    (salt : List Nat) : String :=
  "md5" ++ md5hex (str_bytes (md5hex (str_bytes p ++ str_bytes u)) ++ salt)

/-- Rust `IsolationLevel` (transaction.rs declaration). -/
inductive IsolationLevel where
  | ReadUncommitted
  | ReadCommitted
  | RepeatableRead
  | Serializable
  deriving DecidableEq

/-- The SQL spelling of an isolation level. -/
def IsolationLevel.to_sql : IsolationLevel → String
  | .ReadUncommitted => "READ UNCOMMITTED"
  | .ReadCommitted => "READ COMMITTED"
  | .RepeatableRead => "REPEATABLE READ"
  | .Serializable => "SERIALIZABLE"

/-- Rust `transaction::Config`: optional isolation level, read-only and
deferrable dispositions. -/
structure TxConfig where
  isolation : Option IsolationLevel := none
  read_only : Option Bool := none
  deferrable : Option Bool := none
  deriving DecidableEq

/-- Modelled from the spec: `Config::build_command` (transaction.rs, not
under src/) appends the configured `ISOLATION LEVEL …`,
`READ ONLY`/`READ WRITE` and `DEFERRABLE`/`NOT DEFERRABLE` clauses to the
command. -/
def TxConfig.build_command (cfg : TxConfig) : String :=
  (match cfg.isolation with
   | some l => " ISOLATION LEVEL " ++ l.to_sql
   | none => "") ++
  (match cfg.read_only with
   | some true => " READ ONLY"
   | some false => " READ WRITE"
   | none => "") ++
  (match cfg.deferrable with
   | some true => " DEFERRABLE"
   | some false => " NOT DEFERRABLE"
   | none => "")

/-- Rust `Connection::transaction_with` (lib.rs:1293): `check_desync!`, then
`assert!(conn.trans_depth == 0)` (the `panic` case), then `BEGIN` with the
configured clauses through `quick_query`, then increment the depth; the
returned transaction handle is modelled by its depth, 1. -/
def transaction_with (fuel : Nat) (c : Conn) (config : TxConfig) : Res Nat :=
  if c.desynchronized then .err (.Io desynchronized_error) c
  else if c.trans_depth ≠ 0 then .panic c
  else
    match quick_query fuel c ("BEGIN" ++ config.build_command) with
    | .panic c2 => .panic c2
    | .err e c2 => .err e c2
    | .ok _ c2 => .ok 1 { c2 with trans_depth := c2.trans_depth + 1 }

/-- Rust `Connection::is_active` (lib.rs:1456): no transaction is active. -/
def is_active (c : Conn) : Bool := c.trans_depth == 0

/-- Rust `finish_inner` (lib.rs:1095): `check_desync!`, then write Terminate. -/
def finish_inner (c : Conn) : Res Unit :=
  if c.desynchronized then .err (.Io desynchronized_error) c
  else .ok () (write_messages c [.Terminate])

/-- Rust `Connection::finish` (lib.rs:1464): mark finished, then
`finish_inner`. -/
def finish (c : Conn) : Res Unit :=
  finish_inner { c with finished := true }

/-- Rust `Connection::batch_execute` (lib.rs:1412): `quick_query`, dropping the
rows. -/
def batch_execute (fuel : Nat) (c : Conn) (query : String) : Res Unit :=
  match quick_query fuel c query with
  | .panic c2 => .panic c2
  | .err e c2 => .err e c2
  | .ok _ c2 => .ok () c2

/-- Rust `ConnectTarget` (identical in lib.rs and params.rs): TCP host or Unix
socket path. -/
inductive ConnectTarget where
  | Tcp (host : String)
  | Unix (path : String)
  deriving DecidableEq

/-- Rust `ConnectParams` (identical in lib.rs and params.rs). -/
structure ConnectParams where
  target : ConnectTarget
  port : Option Nat
  user : Option UserInfo
  database : Option String
  options : List (String × String)
  deriving DecidableEq

/-- Rust `Params` (lib.rs:216): builder-style connection parameters. -/
structure Params where
  host : Option String := none
  port : Option Nat := none
  user : Option String := none
  password : Option String := none
  database : Option String := none
  options : List (String × String) := []
  auto_guess_user : Bool := true
  deriving DecidableEq

/-- Rust `Params::into_connect_params` (lib.rs:304).  The `users`-feature OS
username lookup is abstracted into the `get_os_user` argument (`none`
models the build without the feature); `make_unix` is the
unix_socket-enabled variant, which wraps the path without failing. -/
def Params.into_connect_params (p : Params) (get_os_user : Option String) :
    Except String ConnectParams :=
  let username := match p.user with
    | some u => some u
    | none => if p.auto_guess_user then get_os_user else none
  let userinfo := match username with
    | none => none
    | some u => some (UserInfo.mk u p.password)
  let target := match p.host with
    | none => ConnectTarget.Unix "/var/run/postgresql/"
    | some h => ConnectTarget.Tcp h
  .ok ⟨target, p.port, userinfo, p.database, p.options⟩

/-- Rust `DynamicParams` (params.rs:105). -/
structure DynamicParams where
  host : Option String := none
  port : Option Nat := none
  user : Option String := none
  password : Option String := none
  database : Option String := none
  options : List (String × String) := []
  deriving DecidableEq

/-- Rust `DynamicParams::into_connect_params` (params.rs:153): the username is
required; an absent host targets the Unix socket file
`/var/run/postgresql/.s.PGSQL.<port>` with the port defaulting to 5432. -/
def DynamicParams.into_connect_params (p : DynamicParams) :
    Except String ConnectParams :=
  match p.user with
  | none => .error "Must specify username"
  | some user =>
    let userinfo := UserInfo.mk user p.password
    let target := match p.host with
      | none =>
        ConnectTarget.Unix ("/var/run/postgresql/.s.PGSQL." ++ toString (p.port.getD 5432))
      | some h => ConnectTarget.Tcp h
    .ok ⟨target, p.port, some userinfo, p.database, p.options⟩

/-! Frame lemmas for the read primitives. -/

/-- The demux loop touches only the stream, the notice sink and the
parameter map. -/
theorem rmwn_go_frame (s : List Backend) (c : Conn) :
    (read_message_with_notification_go s c).2.out = c.out ∧
    (read_message_with_notification_go s c).2.trans_depth = c.trans_depth ∧
    (read_message_with_notification_go s c).2.notifications = c.notifications ∧
    (read_message_with_notification_go s c).2.next_stmt_id = c.next_stmt_id ∧
    (read_message_with_notification_go s c).2.cached_statements = c.cached_statements ∧
    (read_message_with_notification_go s c).2.unknown_types = c.unknown_types := by
  induction s generalizing c with
  | nil => simp [read_message_with_notification_go]
  | cons g rest ih =>
    cases g <;> simp [read_message_with_notification_go, DbError.new_raw, ih]

/-- The demux loop never returns a NoticeResponse or ParameterStatus
frame. -/
theorem rmwn_go_not_async (s : List Backend) (c : Conn) (f : Backend) (c2 : Conn)
    (h : read_message_with_notification_go s c = (.ok f, c2)) :
    (∀ fields, f ≠ .NoticeResponse fields) ∧ (∀ k v, f ≠ .ParameterStatus k v) := by
  induction s generalizing c with
  | nil => simp [read_message_with_notification_go] at h
  | cons g rest ih =>
    cases g <;> simp [read_message_with_notification_go] at h <;>
      first
      | exact ih _ h
      | (obtain ⟨rfl, rfl⟩ := h; simp)

/-- The timed demux loop never returns a NoticeResponse or ParameterStatus
frame. -/
theorem rmwn_timeout_go_not_async (s : List Backend) (c : Conn) (f : Backend)
    (c2 : Conn)
    (h : read_message_with_notification_timeout_go s c = (.ok (some f), c2)) :
    (∀ fields, f ≠ .NoticeResponse fields) ∧ (∀ k v, f ≠ .ParameterStatus k v) := by
  induction s generalizing c with
  | nil => simp [read_message_with_notification_timeout_go] at h
  | cons g rest ih =>
    cases g <;> simp [read_message_with_notification_timeout_go] at h <;>
      first
      | exact ih _ h
      | (obtain ⟨rfl, rfl⟩ := h; simp)

/-- The timed and non-blocking demux loops are the same function. -/
theorem rmwn_timeout_go_eq_nonblocking_go (s : List Backend) (c : Conn) :
    read_message_with_notification_timeout_go s c =
    read_message_with_notification_nonblocking_go s c := by
  induction s generalizing c with
  | nil =>
    simp [read_message_with_notification_timeout_go,
          read_message_with_notification_nonblocking_go]
  | cons g rest ih =>
    cases g <;>
      simp [read_message_with_notification_timeout_go,
            read_message_with_notification_nonblocking_go, ih]

/-- Rust `read_message` touches only the stream, the notice sink, the parameter
map and the notification queue. -/
theorem read_message_frame (fuel : Nat) (c : Conn) :
    (read_message fuel c).2.out = c.out ∧
    (read_message fuel c).2.trans_depth = c.trans_depth ∧
    (read_message fuel c).2.next_stmt_id = c.next_stmt_id ∧
    (read_message fuel c).2.cached_statements = c.cached_statements ∧
    (read_message fuel c).2.unknown_types = c.unknown_types := by
  induction fuel generalizing c with
  | zero => simp [read_message]
  | succ fuel ih =>
    have hg : (read_message_with_notification c).2.out = c.out ∧
        (read_message_with_notification c).2.trans_depth = c.trans_depth ∧
        (read_message_with_notification c).2.notifications = c.notifications ∧
        (read_message_with_notification c).2.next_stmt_id = c.next_stmt_id ∧
        (read_message_with_notification c).2.cached_statements = c.cached_statements ∧
        (read_message_with_notification c).2.unknown_types = c.unknown_types :=
      rmwn_go_frame c.stream_in c
    rw [read_message]
    rcases hr : read_message_with_notification c with ⟨r, c2⟩
    rw [hr] at hg
    simp only at hg
    rcases r with e | b
    · simp_all
    · cases b <;> simp_all [ih]

/-- Rust `read_message` never returns a NoticeResponse, ParameterStatus or
NotificationResponse frame. -/
theorem read_message_not_async (fuel : Nat) (c : Conn) (f : Backend) (c2 : Conn)
    (h : read_message fuel c = (.ok f, c2)) :
    (∀ fields, f ≠ .NoticeResponse fields) ∧
    (∀ k v, f ≠ .ParameterStatus k v) ∧
    (∀ pid channel payload, f ≠ .NotificationResponse pid channel payload) := by
  induction fuel generalizing c with
  | zero => simp [read_message] at h
  | succ fuel ih =>
    rw [read_message] at h
    rcases hr : read_message_with_notification c with ⟨r, c2'⟩
    rw [hr] at h
    rcases r with e | b
    · simp at h
    · have hna : (∀ fields, b ≠ .NoticeResponse fields) ∧
          (∀ k v, b ≠ .ParameterStatus k v) :=
        rmwn_go_not_async c.stream_in c b c2' hr
      cases b <;>
        first
        | exact ih _ h
        | exact absurd rfl (hna.1 _)
        | exact absurd rfl (hna.2 _ _)
        | (simp only [Prod.mk.injEq, Except.ok.injEq] at h
           obtain ⟨rfl, rfl⟩ := h
           refine ⟨?_, ?_, ?_⟩ <;> intros <;> simp)

/-- Rust `wait_for_ready` touches only the read-side state. -/
theorem wait_for_ready_frame (fuel : Nat) (c : Conn) :
    (wait_for_ready fuel c).2.out = c.out ∧
    (wait_for_ready fuel c).2.trans_depth = c.trans_depth ∧
    (wait_for_ready fuel c).2.next_stmt_id = c.next_stmt_id ∧
    (wait_for_ready fuel c).2.cached_statements = c.cached_statements ∧
    (wait_for_ready fuel c).2.unknown_types = c.unknown_types := by
  have hf := read_message_frame fuel c
  rw [wait_for_ready]
  rcases hr : read_message fuel c with ⟨r, c2⟩
  rw [hr] at hf
  simp only at hf
  rcases r with e | b
  · simp_all
  · cases b <;> simp_all

/-- The `quick_query` loop preserves the transaction depth and only ever
appends to the written frames. -/
theorem quick_query_go_frame (fuel : Nat) (c : Conn)
    (acc : List (List (Option String))) :
    (quick_query_go fuel c acc).conn.trans_depth = c.trans_depth ∧
    ∃ t, (quick_query_go fuel c acc).conn.out = c.out ++ t := by
  induction fuel generalizing c acc with
  | zero => simp [quick_query_go, Res.conn]
  | succ fuel ih =>
    have hf := read_message_frame fuel c
    rw [quick_query_go]
    rcases hr : read_message fuel c with ⟨r, c2⟩
    rw [hr] at hf
    simp only at hf
    rcases hf with ⟨hfo, hfd, -, -, -⟩
    have comp : ∀ (c3 : Conn) (acc2 : List (List (Option String))),
        c3.trans_depth = c.trans_depth → (∃ t0, c3.out = c.out ++ t0) →
        (quick_query_go fuel c3 acc2).conn.trans_depth = c.trans_depth ∧
        ∃ t, (quick_query_go fuel c3 acc2).conn.out = c.out ++ t := by
      intro c3 acc2 hd ho
      obtain ⟨t0, ho⟩ := ho
      obtain ⟨hd2, t1, ho2⟩ := ih c3 acc2
      exact ⟨hd2.trans hd, t0 ++ t1, by rw [ho2, ho, List.append_assoc]⟩
    rcases r with e | b
    · exact ⟨hfd, [], by simp [Res.conn, hfo]⟩
    · have hex : ∃ t0, c2.out = c.out ++ t0 := ⟨[], by simp [hfo]⟩
      have hexc : ∃ t0,
          (write_messages c2 [.CopyFail copy_message, .Sync]).out = c.out ++ t0 :=
        ⟨[.CopyFail copy_message, .Sync], by simp [write_messages, hfo]⟩
      have hdc :
          (write_messages c2 [.CopyFail copy_message, .Sync]).trans_depth = c.trans_depth := by
        simp [write_messages, hfd]
      cases b
      all_goals try exact comp _ _ hfd hex
      case CopyInResponse => exact comp _ _ hdc hexc
      case ReadyForQuery status =>
        exact ⟨hfd, [], by simp [Res.conn, hfo]⟩
      case ErrorResponse fields =>
        have hw := wait_for_ready_frame fuel c2
        rcases hwr : wait_for_ready fuel c2 with ⟨w, c3⟩
        rw [hwr] at hw
        simp only at hw
        rcases w with e2 | u <;>
          exact ⟨by simp [hwr, surface_db_error, Res.conn, hw.2.1, hfd],
                 [], by simp [hwr, surface_db_error, Res.conn, hw.1, hfo]⟩

/-- Rust `surface_db_error` never panics. -/
theorem surface_db_error_ne_panic {α : Type} (fields : List (Nat × String))
    (r : Except Error Unit × Conn) (cp : Conn) :
    surface_db_error (α := α) fields r ≠ .panic cp := by
  rcases r with ⟨w, c3⟩
  rcases w with e | u <;> simp [surface_db_error]

/-- Rust `handle_auth_finish` reads only; it writes nothing. -/
theorem handle_auth_finish_out (fuel : Nat) (c : Conn) :
    (handle_auth_finish fuel c).2.out = c.out := by
  have hf := read_message_frame fuel c
  rw [handle_auth_finish]
  rcases hr : read_message fuel c with ⟨r, c2⟩
  rw [hr] at hf
  simp only at hf
  rcases r with e | b
  · simp_all
  · cases b <;> simp_all

/-- A concrete session state for witnesses and counterexamples: empty
history with the given stream, latch state and transaction depth. -/
def mk_conn (stream : List Backend) (desync : Bool) (depth : Nat) : Conn :=
  { stream_in := stream, out := [], notices := [], notifications := [],
    cancel_data := (0, 0), unknown_types := [], cached_statements := [],
    parameters := [], next_stmt_id := 0, trans_depth := depth,
    desynchronized := desync, finished := false }

/-- The connect target of a successful parameter conversion. -/
def connect_target? (r : Except String ConnectParams) : Option ConnectTarget :=
  match r with
  | .ok cp => some cp.target
  | .error _ => none

/-! Claim theorems, witnesses and counterexamples. -/

/-- C6: for every statement execution, `raw_execute` panics, with the
session state untouched (so before any frame is written), exactly when the
number of supplied parameters differs from the length of the
parameter-type list of the statement; with equal lengths no panic occurs. -/
theorem raw_execute_param_count_panic (fuel : Nat) (c : Conn)
    (stmt_name portal_name : String) (row_limit : Int)
    (param_types : List PgType) (params : List (Option (List Nat)))
    (cp : Conn) :
    raw_execute fuel c stmt_name portal_name row_limit param_types params =
      .panic cp ↔
    (param_types.length ≠ params.length ∧ cp = c) := by
  constructor
  · intro hp
    by_cases hlen : param_types.length = params.length
    · exfalso
      rw [raw_execute, if_pos hlen] at hp
      split at hp <;>
        first
        | simp at hp
        | exact surface_db_error_ne_panic _ _ _ hp
    · rw [raw_execute, if_neg hlen] at hp
      simp at hp
      exact ⟨hlen, hp.symm⟩
  · rintro ⟨hlen, rfl⟩
    rw [raw_execute, if_neg hlen]

/-- C10: with no host configured, both builder-style parameter types
target a Unix socket: `Params` the directory `/var/run/postgresql/`,
`DynamicParams` the socket file `/var/run/postgresql/.s.PGSQL.<port>` with
the port defaulting to 5432. -/
theorem default_unix_targets (p : Params) (get_os_user : Option String)
    (d : DynamicParams) (u : String)
    (hp : p.host = none) (hd : d.host = none) (hu : d.user = some u) :
    connect_target? (p.into_connect_params get_os_user) =
      some (.Unix "/var/run/postgresql/") ∧
    connect_target? d.into_connect_params =
      some (.Unix ("/var/run/postgresql/.s.PGSQL." ++ toString (d.port.getD 5432))) := by
  constructor
  · simp [Params.into_connect_params, connect_target?, hp]
  · simp [DynamicParams.into_connect_params, connect_target?, hd, hu]

/-- Witness for C10: both defaults at concrete parameter records, the
dynamic one with an unset port resolving to `.s.PGSQL.5432`. -/
theorem default_unix_targets_witness :
    connect_target? (Params.into_connect_params
        ⟨none, none, some "u", none, none, [], true⟩ none) =
      some (.Unix "/var/run/postgresql/") ∧
    connect_target? (DynamicParams.into_connect_params
        ⟨none, none, some "u", none, none, []⟩) =
      some (.Unix "/var/run/postgresql/.s.PGSQL.5432") :=
  default_unix_targets ⟨none, none, some "u", none, none, [], true⟩ none
    ⟨none, none, some "u", none, none, []⟩ "u" rfl rfl rfl

/-- C2: on an AuthenticationMD5Password challenge with a 4-byte salt,
`handle_auth` sends exactly one PasswordMessage, whose text is the
formula of the spec, `"md5" || lower_hex(md5(lower_hex(md5(p || u)) || s))`, for every
username, password and salt (`md5hex` abstracts `lower_hex ∘ md5`). -/
theorem handle_auth_md5_formula (md5hex : List Nat → String) (fuel : Nat)
    (c : Conn) (u p : String) (salt : List Nat) (rest : List Backend)
    (hs : c.stream_in = .AuthenticationMD5Password salt :: rest)
    (_hlen : salt.length = 4) :
    (handle_auth md5hex (fuel + 1) c ⟨u, some p⟩).2.out =
      c.out ++ [.PasswordMessage (md5_spec_password md5hex u p salt)] := by
  have h1 : read_message (fuel + 1) c =
      (.ok (.AuthenticationMD5Password salt), { c with stream_in := rest }) := by
    rw [read_message]
    simp [read_message_with_notification, hs, read_message_with_notification_go]
  simp [handle_auth, h1, handle_auth_finish_out, write_messages, Md5.new,
        Md5.input, Md5.result_str, Md5.reset, md5_spec_password]

/-- Witness for C2: the test vector shape of the spec, user `alice`, password
`secret`, salt `01 02 03 04`, with a concrete stand-in for the MD5-hex
function. -/
theorem handle_auth_md5_formula_witness :
    (mk_conn [.AuthenticationMD5Password [1, 2, 3, 4]] false 0).stream_in =
        .AuthenticationMD5Password [1, 2, 3, 4] :: [] ∧
    ([1, 2, 3, 4] : List Nat).length = 4 ∧
    (handle_auth (fun bs => toString bs.length) 1
        (mk_conn [.AuthenticationMD5Password [1, 2, 3, 4]] false 0)
        ⟨"alice", some "secret"⟩).2.out =
      (mk_conn [.AuthenticationMD5Password [1, 2, 3, 4]] false 0).out ++
        [.PasswordMessage (md5_spec_password (fun bs => toString bs.length)
          "alice" "secret" [1, 2, 3, 4])] :=
  ⟨rfl, rfl,
    handle_auth_md5_formula (fun bs => toString bs.length) 0
      (mk_conn [.AuthenticationMD5Password [1, 2, 3, 4]] false 0)
      "alice" "secret" [1, 2, 3, 4] [] rfl rfl⟩

/-- C5: two `prepare_cached` calls with the same query text yield handles
sharing the same descriptor (name, parameter types, columns), and the
second call leaves the session untouched — no Parse or Describe frame is
written, the cache is hit by literal SQL text. -/
theorem prepare_cached_idempotent (fuel fuel2 : Nat) (c : Conn) (q : String)
    (st1 st2 : Statement) (c1 c2 : Conn)
    (h1 : prepare_cached fuel c q = .ok st1 c1)
    (h2 : prepare_cached fuel2 c1 q = .ok st2 c2) :
    st2.info = st1.info ∧ st2.cached = true ∧ c2 = c1 := by
  have hc : c1.cached_statements.lookup q = some st1.info := by
    rw [prepare_cached] at h1
    split at h1
    · rename_i info hl
      simp only [Res.ok.injEq] at h1
      obtain ⟨rfl, rfl⟩ := h1
      exact hl
    · rename_i hl
      split at h1
      split at h1 <;> simp at h1
      obtain ⟨rfl, rfl⟩ := h1
      simp [List.lookup]
  rw [prepare_cached] at h2
  simp only [hc] at h2
  simp only [Res.ok.injEq] at h2
  obtain ⟨rfl, rfl⟩ := h2
  exact ⟨rfl, rfl, rfl⟩

/-- The session before the witness run of C5: a fresh session whose stream
answers one Parse round. -/
def pc_witness_c0 : Conn :=
  mk_conn [.ParseComplete, .ParameterDescription [], .NoData, .ReadyForQuery 73]
    false 0

/-- The session after the first cached prepare of the C5 witness: one
Parse/Describe/Sync batch written, the descriptor cached under the query
text. -/
def pc_witness_c1 : Conn :=
  { stream_in := [],
    out := [.Parse "s0" "SELECT 1" [], .Describe 83 "s0", .Sync],
    notices := [], notifications := [], cancel_data := (0, 0),
    unknown_types := [],
    cached_statements := [("SELECT 1", ⟨"s0", [], []⟩)],
    parameters := [], next_stmt_id := 1, trans_depth := 0,
    desynchronized := false, finished := false }

/-- The handle returned by both cached prepares of the C5 witness. -/
def pc_witness_st : Statement := ⟨⟨"s0", [], []⟩, true⟩

/-- Witness for C5: both calls succeed, share the descriptor, and the
second changes nothing. -/
theorem prepare_cached_idempotent_witness :
    prepare_cached 2 pc_witness_c0 "SELECT 1" = .ok pc_witness_st pc_witness_c1 ∧
    prepare_cached 2 pc_witness_c1 "SELECT 1" = .ok pc_witness_st pc_witness_c1 ∧
    pc_witness_st.info = pc_witness_st.info ∧ pc_witness_st.cached = true ∧
    pc_witness_c1 = pc_witness_c1 := by
  have h1 : prepare_cached 2 pc_witness_c0 "SELECT 1" =
      .ok pc_witness_st pc_witness_c1 := by rfl
  have h2 : prepare_cached 2 pc_witness_c1 "SELECT 1" =
      .ok pc_witness_st pc_witness_c1 := by rfl
  exact ⟨h1, h2,
    prepare_cached_idempotent 2 2 pc_witness_c0 "SELECT 1" _ _ _ _ h1 h2⟩

/-- A desynchronized session whose stream still answers a Parse round. -/
def c1_bug_conn : Conn :=
  mk_conn [.ParseComplete, .ParameterDescription [], .NoData, .ReadyForQuery 73]
    true 0

/-- C1 (code bug): on a session whose desynchronized latch is set,
`prepare` — the first step of execute/query/prepare/prepare_cached — still
writes Parse/Describe/Sync to the stream and can even succeed, because
`raw_prepare` lacks the `check_desync!` guard (only a release-mode
`debug_assert!` in `write_messages` documents the intended invariant); the
`quick_query`-based operations (here `batch_execute`) do honor the latch
and fail with the fixed desynchronized error without writing. -/
theorem desync_latch_code_bug :
    prepare 2 c1_bug_conn "SELECT 1" =
      .ok ⟨⟨"s0", [], []⟩, false⟩
        { stream_in := [],
          out := [.Parse "s0" "SELECT 1" [], .Describe 83 "s0", .Sync],
          notices := [], notifications := [], cancel_data := (0, 0),
          unknown_types := [], cached_statements := [], parameters := [],
          next_stmt_id := 1, trans_depth := 0, desynchronized := true,
          finished := false } ∧
    batch_execute 2 c1_bug_conn "SELECT 1" =
      .err (.Io desynchronized_error) c1_bug_conn ∧
    finish c1_bug_conn =
      .err (.Io desynchronized_error) { c1_bug_conn with finished := true } :=
  ⟨rfl, rfl, rfl⟩

/-- A session whose next frame is a CopyOutResponse followed by the sync
point. -/
def c4_conn : Conn := mk_conn [.CopyOutResponse, .ReadyForQuery 73] false 0

/-- Counterexample to C4: `quick_query` on a stream answering with
CopyOutResponse silently drains it and returns `Ok` with no rows — no
"COPY queries cannot be directly executed" error is surfaced, unlike
`read_rows`. -/
theorem quick_query_copy_out_counterexample :
    quick_query 3 c4_conn "COPY t TO STDOUT" =
      .ok [] { c4_conn with stream_in := [], out := [.Query "COPY t TO STDOUT"] } :=
  rfl

/-- C4 as amended: `quick_query` handles CopyInResponse exactly as
`read_rows` does (CopyFail plus Sync, then keep reading), but
CopyOutResponse is handled only by `read_rows` (drain to ReadyForQuery,
surface the fixed COPY error); the catch-all arm of `quick_query` skips a
CopyOutResponse frame as if it had not arrived, surfacing no error. -/
theorem quick_query_copy_amended (fuel : Nat) (c : Conn) (rest : List Backend)
    (acc : List (List (Option String))) (buf : List Row) :
    (quick_query_go (fuel + 2) { c with stream_in := .CopyOutResponse :: rest } acc =
      quick_query_go (fuel + 1) { c with stream_in := rest } acc) ∧
    (quick_query_go (fuel + 2) { c with stream_in := .CopyInResponse :: rest } acc =
      quick_query_go (fuel + 1)
        (write_messages { c with stream_in := rest } [.CopyFail copy_message, .Sync]) acc) ∧
    (read_rows (fuel + 2) { c with stream_in := .CopyInResponse :: rest } buf =
      read_rows (fuel + 1)
        (write_messages { c with stream_in := rest } [.CopyFail copy_message, .Sync]) buf) ∧
    (read_rows (fuel + 2) { c with stream_in := .CopyOutResponse :: rest } buf =
      match drain_until_ready (fuel + 1) { c with stream_in := rest } with
      | (.ok _, c3) => .err (.Io ⟨.InvalidInput, copy_message⟩) c3
      | (.error e, c3) => .err (.Io e) c3) := by
  have hin : read_message (fuel + 1) { c with stream_in := .CopyInResponse :: rest } =
      (.ok .CopyInResponse, { c with stream_in := rest }) := by
    rw [read_message]
    simp [read_message_with_notification, read_message_with_notification_go]
  have hout : read_message (fuel + 1) { c with stream_in := .CopyOutResponse :: rest } =
      (.ok .CopyOutResponse, { c with stream_in := rest }) := by
    rw [read_message]
    simp [read_message_with_notification, read_message_with_notification_go]
  refine ⟨?_, ?_, ?_, ?_⟩
  · rw [show fuel + 2 = (fuel + 1) + 1 from rfl, quick_query_go, hout]
  · rw [show fuel + 2 = (fuel + 1) + 1 from rfl, quick_query_go, hin]
  · rw [show fuel + 2 = (fuel + 1) + 1 from rfl, read_rows, hin]
  · rw [show fuel + 2 = (fuel + 1) + 1 from rfl, read_rows, hout]

/-- A session whose next frame is an asynchronous notification. -/
def c3_conn : Conn := mk_conn [.NotificationResponse 7 "chan" "pay"] false 0

/-- Counterexample to C3: the timed read primitive returns the
NotificationResponse frame to its caller, and the notification queue stays
empty — the three read variants do not handle NotificationResponse
identically. -/
theorem async_demux_counterexample :
    read_message_with_notification_timeout c3_conn =
      (.ok (some (.NotificationResponse 7 "chan" "pay")),
        { c3_conn with stream_in := [] }) ∧
    ({ c3_conn with stream_in := [] }).notifications = [] :=
  ⟨rfl, rfl⟩

/-- The blocking demux loop reads nothing from the stale `stream_in` field
it carries: every exit path overwrites it, so its result depends only on
the frames it is given. -/
theorem rmwn_go_stream_irrel (s : List Backend) (x x' : List Backend)
    (o : List Frontend) (n : List (List (Nat × String)))
    (nf : List Notification) (cd : Nat × Nat) (ut : List (Oid × OtherType))
    (cs : List (String × StmtInfo)) (p : List (String × String))
    (ni td : Nat) (d fin : Bool) :
    read_message_with_notification_go s ⟨x, o, n, nf, cd, ut, cs, p, ni, td, d, fin⟩ =
    read_message_with_notification_go s ⟨x', o, n, nf, cd, ut, cs, p, ni, td, d, fin⟩ := by
  induction s generalizing n p with
  | nil => simp [read_message_with_notification_go]
  | cons g rest ih =>
    cases g <;>
      simp [read_message_with_notification_go, DbError.new_raw] <;>
      apply ih

/-- The timed demux loop likewise overwrites the stale `stream_in` field on
every exit path. -/
theorem rmwn_timeout_go_stream_irrel (s : List Backend) (x x' : List Backend)
    (o : List Frontend) (n : List (List (Nat × String)))
    (nf : List Notification) (cd : Nat × Nat) (ut : List (Oid × OtherType))
    (cs : List (String × StmtInfo)) (p : List (String × String))
    (ni td : Nat) (d fin : Bool) :
    read_message_with_notification_timeout_go s
      ⟨x, o, n, nf, cd, ut, cs, p, ni, td, d, fin⟩ =
    read_message_with_notification_timeout_go s
      ⟨x', o, n, nf, cd, ut, cs, p, ni, td, d, fin⟩ := by
  induction s generalizing n p with
  | nil => simp [read_message_with_notification_timeout_go]
  | cons g rest ih =>
    cases g <;>
      simp [read_message_with_notification_timeout_go, DbError.new_raw] <;>
      apply ih

/-- C3 as amended: all three read primitives divert NoticeResponse to the
notice sink and ParameterStatus to the parameter map and never return
them; the blocking `read_message` additionally diverts NotificationResponse
to the notification queue; the timed and non-blocking variants are the same
function and return NotificationResponse frames to their caller.  The step
equations (conjuncts 5 to 9) state the delivery itself: consuming a
NoticeResponse appends its fields to the notice sink, consuming a
ParameterStatus prepends the binding to the parameter map — by the same
state transformation in the blocking and the timed variant (the
non-blocking is the timed one by conjunct 3) — and the blocking variant
consumes a NotificationResponse by appending it to the notification
queue. -/
theorem async_demux_amended (fuel : Nat) (c : Conn) :
    (∀ f c2, read_message fuel c = (.ok f, c2) →
      (∀ fields, f ≠ .NoticeResponse fields) ∧
      (∀ k v, f ≠ .ParameterStatus k v) ∧
      (∀ pid channel payload, f ≠ .NotificationResponse pid channel payload)) ∧
    (∀ f c2, read_message_with_notification_timeout c = (.ok (some f), c2) →
      (∀ fields, f ≠ .NoticeResponse fields) ∧
      (∀ k v, f ≠ .ParameterStatus k v)) ∧
    (read_message_with_notification_timeout c =
      read_message_with_notification_nonblocking c) ∧
    (∀ pid channel payload rest,
      c.stream_in = .NotificationResponse pid channel payload :: rest →
      read_message_with_notification_timeout c =
        (.ok (some (.NotificationResponse pid channel payload)),
          { c with stream_in := rest })) ∧
    (∀ fields rest,
      read_message (fuel + 1) { c with stream_in := .NoticeResponse fields :: rest } =
      read_message (fuel + 1)
        { c with stream_in := rest, notices := c.notices ++ [fields] }) ∧
    (∀ k v rest,
      read_message (fuel + 1) { c with stream_in := .ParameterStatus k v :: rest } =
      read_message (fuel + 1)
        { c with stream_in := rest, parameters := (k, v) :: c.parameters }) ∧
    (∀ pid channel payload rest,
      read_message (fuel + 1)
          { c with stream_in := .NotificationResponse pid channel payload :: rest } =
      read_message fuel
        { c with stream_in := rest,
                 notifications := c.notifications ++ [⟨pid, channel, payload⟩] }) ∧
    (∀ fields rest,
      read_message_with_notification_timeout
          { c with stream_in := .NoticeResponse fields :: rest } =
      read_message_with_notification_timeout
        { c with stream_in := rest, notices := c.notices ++ [fields] }) ∧
    (∀ k v rest,
      read_message_with_notification_timeout
          { c with stream_in := .ParameterStatus k v :: rest } =
      read_message_with_notification_timeout
        { c with stream_in := rest, parameters := (k, v) :: c.parameters }) := by
  obtain ⟨x, o, n, nf, cd, ut, cs, p, ni, td, d, fin⟩ := c
  refine ⟨fun f c2 h => read_message_not_async fuel _ f c2 h,
          fun f c2 h => rmwn_timeout_go_not_async _ _ f c2 h,
          rmwn_timeout_go_eq_nonblocking_go _ _,
          fun pid channel payload rest hs => ?_,
          fun fields rest => ?_, fun k v rest => ?_,
          fun pid channel payload rest => ?_,
          fun fields rest => ?_, fun k v rest => ?_⟩
  · simp only at hs
    simp [read_message_with_notification_timeout, hs,
          read_message_with_notification_timeout_go]
  · rw [read_message, read_message]
    simp only [read_message_with_notification,
               read_message_with_notification_go, DbError.new_raw]
    rw [rmwn_go_stream_irrel rest (.NoticeResponse fields :: rest) rest]
  · rw [read_message, read_message]
    simp only [read_message_with_notification,
               read_message_with_notification_go, DbError.new_raw]
    rw [rmwn_go_stream_irrel rest (.ParameterStatus k v :: rest) rest]
  · rw [read_message]
    simp [read_message_with_notification, read_message_with_notification_go]
  · simp only [read_message_with_notification_timeout,
               read_message_with_notification_timeout_go, DbError.new_raw]
    rw [rmwn_timeout_go_stream_irrel rest (.NoticeResponse fields :: rest) rest]
  · simp only [read_message_with_notification_timeout,
               read_message_with_notification_timeout_go, DbError.new_raw]
    rw [rmwn_timeout_go_stream_irrel rest (.ParameterStatus k v :: rest) rest]

/-- Witness for the amended claim of C3: a concrete non-asynchronous frame
survives the blocking demux, the timed variant hands a concrete
notification frame back to the caller, and the blocking variant consumes
the same frame by appending it to the notification queue. -/
theorem async_demux_amended_witness :
    (Backend.ReadyForQuery 73 ≠ .NoticeResponse []) ∧
    read_message_with_notification_timeout c3_conn =
      (.ok (some (.NotificationResponse 7 "chan" "pay")),
        { c3_conn with stream_in := [] }) ∧
    read_message 2 { c3_conn with stream_in := [.NotificationResponse 7 "chan" "pay"] } =
      read_message 1
        { c3_conn with stream_in := [],
                       notifications := c3_conn.notifications ++ [⟨7, "chan", "pay"⟩] } :=
  ⟨((async_demux_amended 1 (mk_conn [.ReadyForQuery 73] false 0)).1
      (.ReadyForQuery 73) (mk_conn [] false 0) (by rfl)).1 [],
   (async_demux_amended 1 c3_conn).2.2.2.1 7 "chan" "pay" [] rfl,
   (async_demux_amended 1 c3_conn).2.2.2.2.2.2.1 7 "chan" "pay" []⟩

/-- C7: beginning a transaction requires depth zero — on a synchronized
session `transaction_with` panics (before writing) when the depth is
nonzero; when it succeeds it has written `BEGIN` extended with the
configured clauses as the next frame and has set the depth to 1; and
`is_active` holds exactly when the depth is 0. -/
theorem transaction_begin_depth (fuel : Nat) (c : Conn) (config : TxConfig) :
    (c.desynchronized = false → c.trans_depth ≠ 0 →
      transaction_with fuel c config = .panic c) ∧
    (∀ t c2, transaction_with fuel c config = .ok t c2 →
      t = 1 ∧ c2.trans_depth = 1 ∧
      ∃ tail, c2.out = c.out ++ .Query ("BEGIN" ++ config.build_command) :: tail) ∧
    (is_active c = true ↔ c.trans_depth = 0) := by
  refine ⟨fun hd hne => ?_, fun t c2 h => ?_, ?_⟩
  · rw [transaction_with]
    simp [hd, hne]
  · by_cases hd : c.desynchronized = true
    · rw [transaction_with] at h
      simp [hd] at h
    · by_cases hz : c.trans_depth ≠ 0
      · rw [transaction_with, if_neg hd, if_pos hz] at h
        simp at h
      · rw [transaction_with, if_neg hd, if_neg hz, quick_query, if_neg hd] at h
        have hq := quick_query_go_frame fuel
          (write_messages c [.Query ("BEGIN" ++ config.build_command)]) []
        rcases hgo : quick_query_go fuel
            (write_messages c [.Query ("BEGIN" ++ config.build_command)]) [] with
          cp | ⟨rows, c3⟩ | ⟨e, c3⟩ <;> rw [hgo] at h hq
        · simp at h
        · simp only [Res.ok.injEq] at h
          obtain ⟨rfl, rfl⟩ := h
          simp only [Res.conn, write_messages] at hq
          obtain ⟨hqd, tail, hqo⟩ := hq
          refine ⟨rfl, ?_, tail, ?_⟩
          · simp only []
            omega
          · simpa using hqo
        · simp at h
  · simp [is_active]

/-- The synchronized, depth-zero session of the C7 witness. -/
def c7_conn : Conn := mk_conn [.ReadyForQuery 73] false 0

/-- The all-default transaction configuration of the C7 witness. -/
def c7_cfg : TxConfig := ⟨none, none, none⟩

/-- The session after the C7 witness transaction begins. -/
def c7_after : Conn :=
  { c7_conn with
    stream_in := [],
    out := [.Query ("BEGIN" ++ c7_cfg.build_command)],
    trans_depth := 1 }

/-- Witness for C7: a depth-1 session makes `transaction_with` panic; on a
fresh session it succeeds, sends `BEGIN`, and sets the depth to 1; and
`is_active` agrees with depth zero on both sessions. -/
theorem transaction_begin_depth_witness :
    transaction_with 2 (mk_conn [] false 1) c7_cfg =
      .panic (mk_conn [] false 1) ∧
    transaction_with 2 c7_conn c7_cfg = .ok 1 c7_after ∧
    c7_after.trans_depth = 1 ∧
    (is_active c7_conn = true ↔ c7_conn.trans_depth = 0) := by
  have hok : transaction_with 2 c7_conn c7_cfg = .ok 1 c7_after := by rfl
  exact ⟨(transaction_begin_depth 2 (mk_conn [] false 1) c7_cfg).1
            rfl (by decide),
         hok,
         ((transaction_begin_depth 2 c7_conn c7_cfg).2.1 1 c7_after hok).2.1,
         (transaction_begin_depth 2 c7_conn c7_cfg).2.2⟩

/-- C8: type resolution consults the static well-known table first and
returns immediately (no state change, no catalog query) on a hit; otherwise
the unknown-types cache of the session, returning the cached entry
unchanged;
and after any successful resolution a second resolution of the same OID
returns the same type with the session untouched — so no catalog query is
run twice. -/
theorem get_type_cached (fuel : Nat) (c : Conn) (oid : Oid) :
    (∀ ty, PgType.from_oid oid = some ty → get_type (fuel + 1) c oid = .ok ty c) ∧
    (∀ o, PgType.from_oid oid = none → c.unknown_types.lookup oid = some o →
      get_type (fuel + 1) c oid = .ok (.Other o) c) ∧
    (∀ ty c2, get_type fuel c oid = .ok ty c2 →
      ∀ fuel2, get_type (fuel2 + 1) c2 oid = .ok ty c2) := by
  refine ⟨fun ty hfo => ?_, fun o hfo hl => ?_, fun ty c2 h fuel2 => ?_⟩
  · rw [get_type]
    simp [hfo]
  · rw [get_type]
    simp [hfo, hl]
  · cases fuel with
    | zero =>
      rw [get_type] at h
      simp at h
    | succ fuel =>
      rw [get_type] at h
      split at h
      · rename_i ty0 hfo
        simp only [Res.ok.injEq] at h
        obtain ⟨rfl, rfl⟩ := h
        rw [get_type]
        simp [hfo]
      · rename_i hfo
        split at h
        · rename_i o hl
          simp only [Res.ok.injEq] at h
          obtain ⟨rfl, rfl⟩ := h
          rw [get_type]
          simp [hfo, hl]
        · rename_i hl
          split at h <;> simp at h
          obtain ⟨rfl, rfl⟩ := h
          rw [get_type]
          simp [hfo, List.lookup]

/-- A session that already resolved OID 1000 into its unknown-types
cache. -/
def c8_conn : Conn :=
  { mk_conn [] false 0 with
    unknown_types := [(1000, .mk "mytype" 1000 .Simple "public")] }

/-- Witness for C8: the static table answers OID 23 (INT4) immediately on a
fresh session, and the unknown-types cache answers OID 1000 on a session
that already resolved it — both leaving the session untouched. -/
theorem get_type_cached_witness :
    get_type 1 (mk_conn [] false 0) 23 = .ok .Int4 (mk_conn [] false 0) ∧
    get_type 1 c8_conn 1000 =
      .ok (.Other (.mk "mytype" 1000 .Simple "public")) c8_conn ∧
    get_type 5 c8_conn 1000 =
      .ok (.Other (.mk "mytype" 1000 .Simple "public")) c8_conn := by
  have h1 : get_type 1 c8_conn 1000 =
      .ok (.Other (.mk "mytype" 1000 .Simple "public")) c8_conn :=
    (get_type_cached 0 c8_conn 1000).2.1 (.mk "mytype" 1000 .Simple "public")
      rfl rfl
  exact ⟨(get_type_cached 0 (mk_conn [] false 0) 23).1 .Int4 rfl,
         h1,
         (get_type_cached 1 c8_conn 1000).2.2 _ _ h1 4⟩

/-- C9: when the `__typeinfo` query of a type resolution returns zero rows,
`read_type` panics (the `rows.pop_front().unwrap()`) instead of returning
an `Err` — the stream shape below is a successful execution with an empty
row set. -/
theorem read_type_empty_rows_panic (fuel : Nat) (c : Conn) (oid : Oid)
    (tag : String) (status : Nat) (rest : List Backend)
    (hs : c.stream_in =
      .BindComplete :: .CommandComplete tag :: .ReadyForQuery status :: rest) :
    (read_type (fuel + 3) c oid).is_panic = true := by
  rw [read_type]
  simp only [raw_execute, read_rows, read_rows_finish, wait_for_ready,
             read_message, read_message_with_notification,
             read_message_with_notification_go, write_messages, hs,
             List.length_cons, List.length_nil]
  rfl

/-- Witness for C9: a concrete session whose stream carries the empty
`__typeinfo` result; resolving OID 1000 aborts. -/
theorem read_type_empty_rows_panic_witness :
    (mk_conn [.BindComplete, .CommandComplete "SELECT 0", .ReadyForQuery 73]
        false 0).stream_in =
      .BindComplete :: .CommandComplete "SELECT 0" :: .ReadyForQuery 73 :: [] ∧
    (read_type 3
        (mk_conn [.BindComplete, .CommandComplete "SELECT 0", .ReadyForQuery 73]
          false 0) 1000).is_panic = true :=
  ⟨rfl,
   read_type_empty_rows_panic 0
     (mk_conn [.BindComplete, .CommandComplete "SELECT 0", .ReadyForQuery 73]
       false 0) 1000 "SELECT 0" 73 [] rfl⟩

end Pg
